import Mathlib

/-!
Shallow embedding of the Bluetooth Glucose Meter core of GlucoSync/Bridge
(`BluetoothGlucoseMeterManager` and its mock transport), together with
theorems settling the specification claims about the SFLOAT codec, the
measurement decoder, and the manager/mock state machine.

Machine integers are modelled as `Nat`/`Int` (JavaScript bitwise operands
here are always below `2^16`, where `>>>`/`&` agree with `Nat.shiftRight`
and `Nat.land`); JavaScript numbers produced by the codec are modelled as
exact rationals plus the IEEE special values; fallible operations return
`Option`/`Except`.
-/

namespace GlucoSync

/-- The `GlucoseUnit` enum (`MGDL = "mg/dL"`, `MMOL = "mmol/L"`). -/
inductive GlucoseUnit
  | mgdl
  | mmol
deriving DecidableEq, Repr

/-- A JavaScript number as produced by the SFLOAT decoder: either one of
the IEEE special values (`NaN`, `±Infinity`) or an exact finite value
(every finite value the codec produces is `mantissa * 10^exponent`, a
rational). -/
inductive SFloat
  | nan
  | posInf
  | negInf
  | finite (q : ℚ)
deriving DecidableEq, Repr

/-- Embedding of `BluetoothGlucoseMeterManager.getSFLOAT` (part_013 lines
522-555; the Expo variant in `expo-glucose-meter.ts` lines 436-470 is
textually identical): the five reserved codes map to IEEE special values,
otherwise `exponent = value >>> 12`, `mantissa = value & 0x0fff`, each
re-interpreted as two's complement (`-(0x000f + 1 - e)` resp.
`-(0x0fff + 1 - m)` when at or above half range), a unit-dependent
exponent shift (+5 for mg/dL, +3 for mmol/L), and the result
`mantissa * 10^exponent`. -/
def getSFLOAT (value : Nat) (unit : GlucoseUnit) : SFloat :=
  if value = 0x07ff then .nan
  else if value = 0x0800 then .nan
  else if value = 0x07fe then .posInf
  else if value = 0x0802 then .negInf
  else if value = 0x0801 then .nan
  else
    let exponent0 : Int := (value >>> 12 : Nat)
    let mantissa0 : Int := (value &&& 0x0fff : Nat)
    let exponent1 : Int :=
      if exponent0 ≥ 0x0008 then -(0x000f + 1 - exponent0) else exponent0
    let mantissa1 : Int :=
      if mantissa0 ≥ 0x0800 then -(0x0fff + 1 - mantissa0) else mantissa0
    let exponent2 : Int :=
      if unit = GlucoseUnit.mgdl then exponent1 + 5
      else if unit = GlucoseUnit.mmol then exponent1 + 3
      else exponent1
    .finite ((mantissa1 : ℚ) * (10 : ℚ) ^ exponent2)

/-- The five reserved SFLOAT sentinel codes. -/
def sfloatSentinels : List Nat := [0x07ff, 0x0800, 0x07fe, 0x0802, 0x0801]

/-- Spec-side reading of "top 4 bits interpreted as two's complement over
4 bits". -/
def twosComplement4 (e : Nat) : Int :=
  if e ≥ 8 then (e : Int) - 16 else (e : Int)

/-- Spec-side reading of "low 12 bits interpreted as two's complement over
12 bits". -/
def twosComplement12 (m : Nat) : Int :=
  if m ≥ 2048 then (m : Int) - 4096 else (m : Int)

/-- The unit-dependent exponent shift of the spec: +5 for mg/dL, +3 for
mmol/L. -/
def unitShift : GlucoseUnit → Int
  | .mgdl => 5
  | .mmol => 3

/-- Modelled from the spec: the spec's `decode(encode(m, e))` round-trip
presumes the canonical SFLOAT packing (no encoder exists in the source):
the 4-bit two's complement of the exponent in the top 4 bits and the
12-bit two's complement of the mantissa in the low 12 bits. -/
def encodeSFloat (m e : Int) : Nat :=
  (e % 16).toNat * 4096 + (m % 4096).toNat

theorem getSFLOAT_shiftRight (value : Nat) : value >>> 12 = value / 4096 := by
  simpa using Nat.shiftRight_eq_div_pow value 12

theorem getSFLOAT_land (value : Nat) : value &&& 0x0fff = value % 4096 := by
  simpa using Nat.and_pow_two_sub_one_eq_mod value 12

theorem getSFLOAT_closed_form (value : Nat) (unit : GlucoseUnit)
    (hs : value ∉ sfloatSentinels) :
    getSFLOAT value unit =
      .finite ((twosComplement12 (value % 4096) : ℚ) *
        (10 : ℚ) ^ (twosComplement4 (value / 4096) + unitShift unit)) := by
  simp only [sfloatSentinels, List.mem_cons, List.not_mem_nil, or_false,
    not_or] at hs
  obtain ⟨h1, h2, h3, h4, h5⟩ := hs
  rw [getSFLOAT]
  simp only [if_neg h1, if_neg h2, if_neg h3, if_neg h4, if_neg h5,
    getSFLOAT_shiftRight, getSFLOAT_land]
  have he : (if ((value / 4096 : Nat) : Int) ≥ 0x0008 then
        -(0x000f + 1 - ((value / 4096 : Nat) : Int))
      else ((value / 4096 : Nat) : Int)) = twosComplement4 (value / 4096) := by
    rw [twosComplement4]
    split <;> split <;> omega
  have hm : (if ((value % 4096 : Nat) : Int) ≥ 0x0800 then
        -(0x0fff + 1 - ((value % 4096 : Nat) : Int))
      else ((value % 4096 : Nat) : Int)) = twosComplement12 (value % 4096) := by
    rw [twosComplement12]
    split <;> split <;> omega
  rw [he, hm]
  cases unit <;> simp [unitShift]

theorem encodeSFloat_div (m e : Int) : encodeSFloat m e / 4096 = (e % 16).toNat := by
  rw [encodeSFloat]; omega

theorem encodeSFloat_mod (m e : Int) : encodeSFloat m e % 4096 = (m % 4096).toNat := by
  rw [encodeSFloat]; omega

theorem twosComplement4_emod (e : Int) (h1 : -8 ≤ e) (h2 : e ≤ 7) :
    twosComplement4 (e % 16).toNat = e := by
  rw [twosComplement4]; split <;> omega

theorem twosComplement12_emod (m : Int) (h1 : -2048 ≤ m) (h2 : m ≤ 2047) :
    twosComplement12 (m % 4096).toNat = m := by
  rw [twosComplement12]; split <;> omega

/-- C1: for every 16-bit input that is not one of the five reserved
sentinel codes, `getSFLOAT` computes `mantissa * 10^(exponent + shift)`,
with the exponent the top 4 bits and the mantissa the low 12 bits, each
read as two's complement, and the shift +5 for mg/dL and +3 for mmol/L;
consequently decoding the (canonical) encoding of any representable
`(mantissa, exponent)` pair whose code is not a sentinel yields
`m * 10^(e + shift)`, i.e. `m * 10^e` expressed in the target unit. -/
theorem getSFLOAT_decode_encode :
    (∀ value unit, value < 65536 → value ∉ sfloatSentinels →
      getSFLOAT value unit =
        .finite ((twosComplement12 (value % 4096) : ℚ) *
          (10 : ℚ) ^ (twosComplement4 (value / 4096) + unitShift unit)))
    ∧
    (∀ m e unit, -2048 ≤ m → m ≤ 2047 → -8 ≤ e → e ≤ 7 →
      encodeSFloat m e ∉ sfloatSentinels →
      getSFLOAT (encodeSFloat m e) unit =
        .finite ((m : ℚ) * (10 : ℚ) ^ (e + unitShift unit))) := by
  constructor
  · intro value unit _ hs
    exact getSFLOAT_closed_form value unit hs
  · intro m e unit hm1 hm2 he1 he2 hs
    rw [getSFLOAT_closed_form _ _ hs, encodeSFloat_div, encodeSFloat_mod,
      twosComplement4_emod e he1 he2, twosComplement12_emod m hm1 hm2]

theorem getSFLOAT_decode_encode_witness :
    ((291 : Nat) < 65536 ∧ (291 : Nat) ∉ sfloatSentinels ∧
      getSFLOAT 291 .mgdl = .finite 29100000) ∧
    (encodeSFloat (-3) (-1) ∉ sfloatSentinels ∧
      getSFLOAT (encodeSFloat (-3) (-1)) .mgdl = .finite (-30000)) := by
  refine ⟨⟨by norm_num, by decide, ?_⟩, ⟨by decide, ?_⟩⟩
  · rw [getSFLOAT_decode_encode.1 291 .mgdl (by norm_num) (by decide)]
    norm_num [twosComplement12, twosComplement4, unitShift]
  · rw [getSFLOAT_decode_encode.2 (-3) (-1) .mgdl (by norm_num) (by norm_num)
      (by norm_num) (by norm_num) (by decide)]
    norm_num [unitShift]

/-- C2: `getSFLOAT` returns NaN exactly for inputs `0x07FF`, `0x0800` and
`0x0801`, `+Infinity` exactly for `0x07FE`, and `-Infinity` exactly for
`0x0802`; no other input receives the sentinels' special handling. -/
theorem getSFLOAT_sentinel_values (value : Nat) (unit : GlucoseUnit) :
    (getSFLOAT value unit = .nan ↔
      value = 0x07ff ∨ value = 0x0800 ∨ value = 0x0801) ∧
    (getSFLOAT value unit = .posInf ↔ value = 0x07fe) ∧
    (getSFLOAT value unit = .negInf ↔ value = 0x0802) := by
  rw [getSFLOAT]
  split_ifs with h1 h2 h3 h4 h5 <;> simp_all

/-! ## Measurement decoder (`parseGlucoseMeasurement`) -/

/-- `DataView.getUint8(i)` over a byte buffer (entries < 256): `none`
models the `RangeError` an out-of-bounds read throws, which the source's
`try`/`catch` turns into a `null` result. -/
def getUint8 (buf : List Nat) (i : Nat) : Option Nat := buf.get? i

/-- `DataView.getUint16(i, true)` (little endian): low byte at `i`, high
byte at `i + 1`. -/
def getUint16le (buf : List Nat) (i : Nat) : Option Nat :=
  match buf.get? i, buf.get? (i + 1) with
  | some lo, some hi => some (lo + 256 * hi)
  | _, _ => none

/-- `DataView.getInt16(i, true)`: the unsigned little-endian word
re-interpreted as two's complement. -/
def getInt16le (buf : List Nat) (i : Nat) : Option Int :=
  (getUint16le buf i).map fun v =>
    if v ≥ 0x8000 then (v : Int) - 65536 else (v : Int)

/-- A reading timestamp: `civil` models the ISO string produced from
`new Date(year, month - 1, day, hours, minutes, seconds)` by its civil
components (the raw parsed fields determine the string); `epochMs` models
the ISO string of `new Date(ms)` by its epoch-milliseconds value, whose
order agrees with the lexicographic order of the ISO strings. -/
inductive Timestamp
  | civil (year month day hours minutes seconds : Nat)
  | epochMs (ms : Int)
deriving DecidableEq, Repr

/-- A reading id, modelling the template strings of the source by their
filled-in fields (distinct fields give distinct strings):
`bluetooth-${seqNum}-${timestamp}` from `parseGlucoseMeasurement` and
`mock-${deviceId}-${i}` from `mockSyncDevice`. -/
inductive ReadingId
  | bluetooth (seqNum : Nat) (timestamp : Timestamp)
  | mock (deviceId : String) (index : Nat)
deriving DecidableEq, Repr

/-- The open `metadata` map of a `GlucoseReading`: each key the source
ever writes, `none` for absent/`undefined`. -/
structure ReadingMetadata where
  sequenceNumber : Option Nat := none
  type : Option Nat := none
  location : Option Nat := none
  status : Option Nat := none
  hasContext : Option Bool := none
  deviceId : Option String := none
  mockGenerated : Option Bool := none
deriving DecidableEq, Repr

/-- The normalized `GlucoseReading` record. -/
structure GlucoseReading where
  id : ReadingId
  value : SFloat
  unit : GlucoseUnit
  timestamp : Timestamp
  source : String
  readingType : String
  metadata : ReadingMetadata
deriving DecidableEq, Repr

/-- `getReadingTypeFromLocation` (part_013 lines 557-577): a 16-entry
table, out-of-range indices give `"unknown"`. -/
def getReadingTypeFromLocation (location : Nat) : String :=
  let locations := ["not_available", "finger", "alternate_site_test",
    "earlobe", "control_solution", "not_available", "not_available",
    "not_available", "not_available", "not_available", "not_available",
    "not_available", "not_available", "not_available", "not_available",
    "not_available"]
  match locations.get? location with
  | some s => s
  | none => "unknown"

/-- Embedding of `BluetoothGlucoseMeterManager.parseGlucoseMeasurement`
(part_013 lines 438-511). Reads flags, sequence number and base time
unconditionally; consumes the 2-byte time offset when flags bit 0 is set
(parsed, then discarded); when flags bit 1 (glucose present) is set reads
the SFLOAT value, the type/location byte and, when flags bit 3 is set,
the 2-byte status, and builds the reading; otherwise returns `null`. Any
out-of-bounds read (`none`) yields `null` via the source's `catch`. -/
def parseGlucoseMeasurement (buf : List Nat) : Option GlucoseReading :=
  (getUint8 buf 0).bind fun flags =>
  (getUint16le buf 1).bind fun seqNum =>
  (getUint16le buf 3).bind fun year =>
  (getUint8 buf 5).bind fun month =>
  (getUint8 buf 6).bind fun day =>
  (getUint8 buf 7).bind fun hours =>
  (getUint8 buf 8).bind fun minutes =>
  (getUint8 buf 9).bind fun seconds =>
  let timestamp := Timestamp.civil year month day hours minutes seconds
  (if flags &&& 1 ≠ 0 then (getInt16le buf 10).map fun _ => (12 : Nat)
   else some 10).bind fun offset =>
  if flags &&& 2 ≠ 0 then
    let unit := if flags &&& 4 ≠ 0 then GlucoseUnit.mmol else GlucoseUnit.mgdl
    (getUint16le buf offset).bind fun rawSFloat =>
    (getUint8 buf (offset + 2)).bind fun typeLoc =>
    let glucoseValue := getSFLOAT rawSFloat unit
    let sampleType := typeLoc >>> 4
    let location := typeLoc &&& 0x0f
    (if flags &&& 8 ≠ 0 then (getUint16le buf (offset + 3)).map some
     else some none).bind fun status =>
    some {
      id := .bluetooth seqNum timestamp
      value := glucoseValue
      unit := unit
      timestamp := timestamp
      source := "Bluetooth Glucose Meter"
      readingType := getReadingTypeFromLocation location
      metadata := {
        sequenceNumber := some seqNum
        type := some sampleType
        location := some location
        status := status
        hasContext := some (flags &&& 0x10 != 0) } }
  else none

/-- `Math.round` on exact rationals: round half toward positive
infinity. -/
def jsRound (q : ℚ) : Int := ⌊q + 1/2⌋

/-- "Rounded to one decimal place" in the spec's sense:
`Math.round(v * 10) / 10`. -/
def roundTo1 (q : ℚ) : ℚ := (jsRound (q * 10) : ℚ) / 10

/-- A well-formed measurement buffer: flags `0x02` (glucose present, no
time offset, mg/dL, no status), sequence number 1, base time
2025-01-01 12:30:00, SFLOAT `0x807B` (mantissa 123, exponent -8, i.e.
0.123 mg/dL after the +5 shift), type/location byte `0x11`. -/
def c3buf : List Nat :=
  [0x02, 0x01, 0x00, 0xE9, 0x07, 0x01, 0x01, 0x0C, 0x1E, 0x00, 0x7B, 0x80, 0x11]

/-- The reading `parseGlucoseMeasurement` produces for `c3buf`. -/
def c3reading : GlucoseReading :=
  { id := .bluetooth 1 (.civil 2025 1 1 12 30 0)
    value := getSFLOAT 32891 GlucoseUnit.mgdl
    unit := .mgdl
    timestamp := .civil 2025 1 1 12 30 0
    source := "Bluetooth Glucose Meter"
    readingType := "finger"
    metadata := {
      sequenceNumber := some 1
      type := some 1
      location := some 1
      status := none
      hasContext := some false } }

theorem getSFLOAT_32891 : getSFLOAT 32891 GlucoseUnit.mgdl = .finite (123/1000) := by
  rw [getSFLOAT_closed_form 32891 GlucoseUnit.mgdl (by decide)]
  norm_num [twosComplement12, twosComplement4, unitShift]

/-- C3 counterexample: on `c3buf` the decoder yields value 0.123, which
is not equal to its own rounding to one decimal place (0.1) — the source
applies no rounding. -/
theorem parse_value_not_rounded_cex :
    (parseGlucoseMeasurement c3buf).map (fun r => r.value) =
      some (.finite (123/1000)) ∧
    roundTo1 (123/1000) ≠ (123/1000 : ℚ) := by
  constructor
  · have h1 : parseGlucoseMeasurement c3buf = some c3reading := rfl
    rw [h1, Option.map_some', c3reading, getSFLOAT_32891]
  · have hfloor : (⌊(123:ℚ)/1000 * 10 + 1/2⌋ : ℤ) = 1 := by
      rw [Int.floor_eq_iff]
      norm_num
    rw [roundTo1, jsRound, hfloor]
    norm_num

/-- C3 amended: whenever the decoder produces a reading, its value field
is exactly the decoded SFLOAT of the two value bytes in the requested
unit, with no rounding applied. -/
theorem parse_value_is_decoded_sfloat (buf : List Nat) (r : GlucoseReading)
    (hr : parseGlucoseMeasurement buf = some r) :
    ∃ flags rawSFloat,
      getUint8 buf 0 = some flags ∧ flags &&& 2 ≠ 0 ∧
      getUint16le buf (if flags &&& 1 ≠ 0 then 12 else 10) = some rawSFloat ∧
      r.value = getSFLOAT rawSFloat
        (if flags &&& 4 ≠ 0 then GlucoseUnit.mmol else GlucoseUnit.mgdl) := by
  rw [parseGlucoseMeasurement] at hr
  rw [Option.bind_eq_some] at hr
  obtain ⟨flags, h0, hr⟩ := hr
  rw [Option.bind_eq_some] at hr
  obtain ⟨seqNum, hq1, hr⟩ := hr
  rw [Option.bind_eq_some] at hr
  obtain ⟨year, hq3, hr⟩ := hr
  rw [Option.bind_eq_some] at hr
  obtain ⟨month, h5, hr⟩ := hr
  rw [Option.bind_eq_some] at hr
  obtain ⟨day, h6, hr⟩ := hr
  rw [Option.bind_eq_some] at hr
  obtain ⟨hours, h7, hr⟩ := hr
  rw [Option.bind_eq_some] at hr
  obtain ⟨minutes, h8, hr⟩ := hr
  rw [Option.bind_eq_some] at hr
  obtain ⟨seconds, h9, hr⟩ := hr
  rw [Option.bind_eq_some] at hr
  obtain ⟨offset, hoff, hr⟩ := hr
  by_cases h2 : flags &&& 2 ≠ 0
  · rw [if_pos h2] at hr
    rw [Option.bind_eq_some] at hr
    obtain ⟨rawSFloat, hraw, hr⟩ := hr
    rw [Option.bind_eq_some] at hr
    obtain ⟨typeLoc, htl, hr⟩ := hr
    rw [Option.bind_eq_some] at hr
    obtain ⟨status, hstat, hr⟩ := hr
    rw [Option.some_inj] at hr
    have hoffval : offset = if flags &&& 1 ≠ 0 then 12 else 10 := by
      by_cases h1 : flags &&& 1 ≠ 0
      · rw [if_pos h1] at hoff ⊢
        rw [Option.map_eq_some'] at hoff
        obtain ⟨_, _, hoff⟩ := hoff
        omega
      · rw [if_neg h1] at hoff ⊢
        rw [Option.some_inj] at hoff
        omega
    refine ⟨flags, rawSFloat, h0, h2, ?_, ?_⟩
    · rw [← hoffval]; exact hraw
    · rw [← hr]
  · rw [if_neg h2] at hr
    exact Option.noConfusion hr

theorem parse_value_is_decoded_sfloat_witness :
    parseGlucoseMeasurement c3buf = some c3reading ∧
    ∃ flags rawSFloat,
      getUint8 c3buf 0 = some flags ∧ flags &&& 2 ≠ 0 ∧
      getUint16le c3buf (if flags &&& 1 ≠ 0 then 12 else 10) = some rawSFloat ∧
      c3reading.value = getSFLOAT rawSFloat
        (if flags &&& 4 ≠ 0 then GlucoseUnit.mmol else GlucoseUnit.mgdl) :=
  ⟨rfl, parse_value_is_decoded_sfloat c3buf c3reading rfl⟩

/-- C4: the measurement decoder is total — every buffer, however
malformed or truncated, yields either a reading or `null` (out-of-bounds
reads are caught and give `null`) — and any buffer whose glucose-present
flag (bit 1) is unset yields `null` regardless of the other bytes. -/
theorem parse_null_without_glucose_flag (buf : List Nat) :
    (parseGlucoseMeasurement buf = none ∨
      ∃ r, parseGlucoseMeasurement buf = some r) ∧
    (∀ flags, getUint8 buf 0 = some flags → flags &&& 2 = 0 →
      parseGlucoseMeasurement buf = none) := by
  refine ⟨?_, ?_⟩
  · cases h : parseGlucoseMeasurement buf with
    | none => exact Or.inl rfl
    | some r => exact Or.inr ⟨r, rfl⟩
  · intro flags h0 h2
    rw [parseGlucoseMeasurement, h0, Option.some_bind]
    rcases getUint16le buf 1 with _ | seqNum
    · rfl
    rcases getUint16le buf 3 with _ | year
    · rfl
    rcases getUint8 buf 5 with _ | month
    · rfl
    rcases getUint8 buf 6 with _ | day
    · rfl
    rcases getUint8 buf 7 with _ | hours
    · rfl
    rcases getUint8 buf 8 with _ | minutes
    · rfl
    rcases getUint8 buf 9 with _ | seconds
    · rfl
    simp only [Option.some_bind]
    have h2ne : ¬(flags &&& 2 ≠ 0) := fun hcond => hcond h2
    by_cases h1 : flags &&& 1 ≠ 0
    · rw [if_pos h1]
      rcases getInt16le buf 10 with _ | toff
      · rfl
      · simp only [Option.map_some', Option.some_bind, if_neg h2ne]
    · rw [if_neg h1, Option.some_bind, if_neg h2ne]

theorem parse_null_without_glucose_flag_witness :
    (parseGlucoseMeasurement [1] = none ∨
      ∃ r, parseGlucoseMeasurement [1] = some r) ∧
    parseGlucoseMeasurement [1] = none :=
  ⟨(parse_null_without_glucose_flag [1]).1,
    (parse_null_without_glucose_flag [1]).2 1 rfl (by decide)⟩

/-! ## Manager state machine and mock transport -/

/-- The `BluetoothConnectionState` enum. -/
inductive ConnState
  | disconnected
  | scanning
  | connecting
  | connected
  | syncing
  | error
deriving DecidableEq, Repr

/-- A `BluetoothGlucoseMeter` registry record. -/
structure DeviceRecord where
  id : String
  name : String
  manufacturer : Option String := none
  model : Option String := none
  connectionState : ConnState
  rssi : Option Int := none
  batteryLevel : Option Int := none
  lastSync : Option Int := none
  supportsStreaming : Option Bool := none
deriving DecidableEq, Repr

/-- `MockBluetoothOptions` with the defaults the constructor fills in
(part_013 lines 58-68). -/
structure MockBluetoothOptions where
  enableMockMode : Bool := false
  mockDeviceCount : Nat := 3
  mockReadingCount : Nat := 50
  mockSeed : Nat := 12345
  simulateDelays : Bool := true
  mockFailureRate : ℚ := 1/10
deriving DecidableEq, Repr

/-- A JavaScript `Error` by its `name` and `message`; `new Error(msg)`
has name `"Error"`. -/
structure JsError where
  name : String
  message : String
deriving DecidableEq, Repr

/-- `new Error(message)`. -/
def jsError (message : String) : JsError := ⟨"Error", message⟩

/-- The mutable fields of `BluetoothGlucoseMeterManager`:
`connectedDevices` (keys of the `Map<string, BluetoothDevice>`),
`deviceInfo` (the registry `Map<string, BluetoothGlucoseMeter>` as an
insertion-ordered association list), the scan flag and the options. -/
structure ManagerState where
  connectedDevices : List String := []
  deviceInfo : List (String × DeviceRecord) := []
  isScanning : Bool := false
  mockOptions : MockBluetoothOptions := {}
deriving DecidableEq, Repr

/-- `Map.get` on the insertion-ordered association list. -/
def mapGet (m : List (String × DeviceRecord)) (k : String) :
    Option DeviceRecord :=
  (m.find? fun p => p.1 = k).map fun p => p.2

/-- `Map.set`: replaces in place when the key exists, appends
otherwise. -/
def mapSet (m : List (String × DeviceRecord)) (k : String)
    (v : DeviceRecord) : List (String × DeviceRecord) :=
  if m.any fun p => p.1 = k then
    m.map fun p => if p.1 = k then (k, v) else p
  else m ++ [(k, v)]

/-- JavaScript `x || d` on a number: `d` when `x` is falsy (zero). -/
def jsOrNat (x d : Nat) : Nat := if x = 0 then d else x

/-- JavaScript `x || d` on a number, rational version. -/
def jsOrRat (x d : ℚ) : ℚ := if x = 0 then d else x

/-- `updateDeviceState` (part_013 lines 369-378). -/
def updateDeviceState (st : ManagerState) (deviceId : String)
    (s : ConnState) : ManagerState :=
  match mapGet st.deviceInfo deviceId with
  | none => st
  | some d =>
    { st with deviceInfo :=
        mapSet st.deviceInfo deviceId { d with connectionState := s } }

/-- `updateDeviceLastSync` (part_013 lines 380-386); `now` is the clock
reading `new Date().toISOString()` records. -/
def updateDeviceLastSync (st : ManagerState) (deviceId : String)
    (now : Int) : ManagerState :=
  match mapGet st.deviceInfo deviceId with
  | none => st
  | some d =>
    { st with deviceInfo :=
        mapSet st.deviceInfo deviceId { d with lastSync := some now } }

/-- The `i`-th synthesized device of `mockScanForDevices` (part_013 lines
597-607): rotating manufacturer/model pairs, decreasing signal strength
and battery. -/
def mockDevice (i : Nat) : DeviceRecord :=
  { id := "mock-device-" ++ toString (i + 1)
    name := "Mock Glucose Meter " ++ toString (i + 1)
    manufacturer :=
      some (if i = 0 then "Abbott" else if i = 1 then "Roche" else "LifeScan")
    model :=
      some (if i = 0 then "FreeStyle Libre"
            else if i = 1 then "Accu-Chek" else "OneTouch")
    connectionState := .disconnected
    rssi := some (-40 - (i : Int) * 10)
    batteryLevel := some (85 - (i : Int) * 15)
    supportsStreaming := some true }

/-- `mockScanForDevices` (part_013 lines 587-615): synthesizes
`mockDeviceCount || 3` devices and registers each in `deviceInfo`.
(The simulated delay has no effect on the result or state.) -/
def mockScanForDevices (st : ManagerState) :
    List DeviceRecord × ManagerState :=
  let deviceCount := jsOrNat st.mockOptions.mockDeviceCount 3
  let devices := (List.range deviceCount).map mockDevice
  (devices,
    { st with deviceInfo :=
        devices.foldl (fun m d => mapSet m d.id d) st.deviceInfo })

/-- `mockConnectToDevice` (part_013 lines 617-639): unknown id throws;
otherwise `Math.random() < (mockFailureRate || 0)` throws "Mock
connection failed" before any state mutation, else the registry record
is marked `CONNECTED` and the call resolves `true`. `random` is the
`Math.random()` draw, in `[0, 1)`. -/
def mockConnectToDevice (st : ManagerState) (deviceId : String)
    (random : ℚ) : Except JsError Bool × ManagerState :=
  match mapGet st.deviceInfo deviceId with
  | none =>
    (.error (jsError ("Device " ++ deviceId ++ " not found. Run scan first.")),
      st)
  | some _ =>
    if random < jsOrRat st.mockOptions.mockFailureRate 0 then
      (.error (jsError "Mock connection failed"), st)
    else
      (.ok true, updateDeviceState st deviceId .connected)

/-- `mockDisconnectDevice` (part_013 lines 641-644). -/
def mockDisconnectDevice (st : ManagerState) (deviceId : String) :
    Except JsError Bool × ManagerState :=
  (.ok true, updateDeviceState st deviceId .disconnected)

/-- The outcome of the real transport layer during a connect (the
`navigator.bluetooth` requestDevice/GATT-connect/service-setup sequence,
abstracted: the claims under verification only depend on whether it
throws). -/
inductive TransportResult
  | success
  | failure (msg : String)
deriving DecidableEq, Repr

/-- `connectToDevice` (part_013 lines 153-209): delegates to the mock in
mock mode; otherwise: unknown id throws "not found", an id already in
`connectedDevices` returns `true` untouched, else the record is marked
`CONNECTING` and the transport outcome decides between `CONNECTED`/`true`
and `ERROR`/throw. (The best-effort Device Information reads, which only
touch the `manufacturer`/`model` fields, and the `autoSync` option are
outside the claims and omitted.) -/
def connectToDevice (st : ManagerState) (deviceId : String) (random : ℚ)
    (transport : TransportResult) : Except JsError Bool × ManagerState :=
  if st.mockOptions.enableMockMode then
    mockConnectToDevice st deviceId random
  else
    match mapGet st.deviceInfo deviceId with
    | none =>
      (.error (jsError ("Device " ++ deviceId ++ " not found. Run scan first.")),
        st)
    | some _ =>
      if st.connectedDevices.contains deviceId then (.ok true, st)
      else
        let st1 := updateDeviceState st deviceId .connecting
        match transport with
        | .success =>
          let st2 :=
            { st1 with connectedDevices := st1.connectedDevices ++ [deviceId] }
          (.ok true, updateDeviceState st2 deviceId .connected)
        | .failure msg =>
          (.error (jsError ("Failed to connect to device: " ++ msg)),
            updateDeviceState st1 deviceId .error)

/-- One reading synthesized by `mockSyncDevice` (part_013 lines 664-685)
for index `i`: timestamp `now - i * 4h`, value
`max(70, min(300, round(120 + sin(i * 0.1) * 30 + (random - 0.5) * 40)))`.
`sin` is `Math.sin` and `rand i` the `i`-th `Math.random()` draw. -/
def mockReading (deviceId : String) (now : Int) (sin : ℚ → ℚ)
    (rand : Nat → ℚ) (i : Nat) : GlucoseReading :=
  let timestamp : Int := now - (i : Int) * (4 * 60 * 60 * 1000)
  let baseValue : ℚ := 120 + sin ((i : ℚ) * (1/10)) * 30 + (rand i - 1/2) * 40
  let value : ℚ := max 70 (min 300 ((jsRound baseValue : ℤ) : ℚ))
  { id := .mock deviceId i
    value := .finite value
    unit := .mgdl
    timestamp := .epochMs timestamp
    source := "Mock Device " ++ deviceId
    readingType := "finger"
    metadata := { sequenceNumber := some (i + 1)
                  deviceId := some deviceId
                  mockGenerated := some true } }

/-- `mockSyncDevice` (part_013 lines 646-689): requires the registry
record to exist and be `CONNECTED`, synthesizes `mockReadingCount || 50`
readings newest-first, stamps `lastSync`, and returns them reversed
(chronological). -/
def mockSyncDevice (st : ManagerState) (deviceId : String) (now : Int)
    (sin : ℚ → ℚ) (rand : Nat → ℚ) :
    Except JsError (List GlucoseReading) × ManagerState :=
  match mapGet st.deviceInfo deviceId with
  | none =>
    (.error (jsError ("Device " ++ deviceId ++ " is not connected")), st)
  | some d =>
    if d.connectionState = ConnState.connected then
      let readingCount := jsOrNat st.mockOptions.mockReadingCount 50
      let readings :=
        (List.range readingCount).map (mockReading deviceId now sin rand)
      (.ok readings.reverse, updateDeviceLastSync st deviceId now)
    else
      (.error (jsError ("Device " ++ deviceId ++ " is not connected")), st)

/-- The entry phase of the real `syncDevice` (part_013 lines 246-251):
reject when the device has no live connection, otherwise mark the
registry record `SYNCING` before the RACP exchange begins. -/
def syncDeviceStart (st : ManagerState) (deviceId : String) :
    Except JsError ManagerState :=
  if st.connectedDevices.contains deviceId then
    .ok (updateDeviceState st deviceId .syncing)
  else
    .error (jsError ("Device " ++ deviceId ++ " is not connected"))

/-- `getConnectedDevices` (part_013 lines 351-355): the registry values
whose connection state is `CONNECTED`. -/
def getConnectedDevices (st : ManagerState) : List DeviceRecord :=
  (st.deviceInfo.map fun p => p.2).filter
    fun d => d.connectionState = ConnState.connected

theorem find?_mapSet_self (m : List (String × DeviceRecord)) (k : String)
    (v : DeviceRecord) :
    (mapSet m k v).find? (fun p => p.1 = k) = some (k, v) := by
  rw [mapSet]
  split
  · rename_i h
    induction m with
    | nil => simp at h
    | cons a tl ih =>
      rw [List.map_cons]
      by_cases hk : a.1 = k
      · rw [if_pos hk]
        exact List.find?_cons_of_pos _ (by simp)
      · rw [if_neg hk, List.find?_cons_of_neg _ (by simpa using hk)]
        simp only [List.any_cons, Bool.or_eq_true] at h
        rcases h with h | h
        · exact absurd (by simpa using h) hk
        · exact ih h
  · rename_i h
    induction m with
    | nil => simp
    | cons a tl ih =>
      simp only [List.any_cons, Bool.or_eq_true, not_or] at h
      rw [List.cons_append,
        List.find?_cons_of_neg _ (by simpa using h.1)]
      exact ih h.2

theorem mapGet_mapSet_self (m : List (String × DeviceRecord)) (k : String)
    (v : DeviceRecord) : mapGet (mapSet m k v) k = some v := by
  rw [mapGet, find?_mapSet_self, Option.map_some']

theorem mapGet_updateDeviceState (st : ManagerState) (deviceId : String)
    (s : ConnState) (d : DeviceRecord)
    (hd : mapGet st.deviceInfo deviceId = some d) :
    mapGet (updateDeviceState st deviceId s).deviceInfo deviceId =
      some { d with connectionState := s } := by
  rw [updateDeviceState]
  simp only [hd]
  exact mapGet_mapSet_self _ _ _

theorem mem_getConnectedDevices (st : ManagerState) (d : DeviceRecord) :
    d ∈ getConnectedDevices st ↔
      d ∈ st.deviceInfo.map (fun p => p.2) ∧
      d.connectionState = ConnState.connected := by
  rw [getConnectedDevices]
  simp [List.mem_filter]

/-- C10: `getConnectedDevices` returns exactly the registry records whose
connection state equals CONNECTED; consequently once the real
`syncDevice` entry has marked a device SYNCING, the device's record is
absent from `getConnectedDevices` even though its connection is live. -/
theorem getConnectedDevices_connected_only :
    (∀ st d, d ∈ getConnectedDevices st ↔
      d ∈ st.deviceInfo.map (fun p => p.2) ∧
      d.connectionState = ConnState.connected)
    ∧
    (∀ st deviceId d st', mapGet st.deviceInfo deviceId = some d →
      syncDeviceStart st deviceId = .ok st' →
      ∃ d', mapGet st'.deviceInfo deviceId = some d' ∧
        d'.connectionState = ConnState.syncing ∧
        d' ∉ getConnectedDevices st') := by
  refine ⟨mem_getConnectedDevices, ?_⟩
  intro st deviceId d st' hd hok
  rw [syncDeviceStart] at hok
  split at hok
  · rw [Except.ok.injEq] at hok
    refine ⟨{ d with connectionState := ConnState.syncing }, ?_, rfl, ?_⟩
    · rw [← hok]
      exact mapGet_updateDeviceState st deviceId ConnState.syncing d hd
    · intro hmem
      have := ((mem_getConnectedDevices st' _).mp hmem).2
      simp at this
  · exact Except.noConfusion hok

theorem getConnectedDevices_connected_only_witness :
    (mockDevice 0 ∉
      getConnectedDevices { deviceInfo := [("d1", mockDevice 0)] }) ∧
    (∃ d', mapGet (updateDeviceState
        { connectedDevices := ["d1"],
          deviceInfo :=
            [("d1", { id := "d1", name := "D",
                      connectionState := ConnState.connected })] }
        "d1" ConnState.syncing).deviceInfo "d1" = some d' ∧
      d'.connectionState = ConnState.syncing ∧
      d' ∉ getConnectedDevices (updateDeviceState
        { connectedDevices := ["d1"],
          deviceInfo :=
            [("d1", { id := "d1", name := "D",
                      connectionState := ConnState.connected })] }
        "d1" ConnState.syncing)) := by
  constructor
  · intro hmem
    have h := (getConnectedDevices_connected_only.1
      { deviceInfo := [("d1", mockDevice 0)] } (mockDevice 0)).mp hmem
    exact absurd h.2 (by decide)
  · exact getConnectedDevices_connected_only.2
      { connectedDevices := ["d1"],
        deviceInfo :=
          [("d1", { id := "d1", name := "D",
                    connectionState := ConnState.connected })] }
      "d1" { id := "d1", name := "D", connectionState := ConnState.connected }
      _ rfl rfl

/-- C6: with mockFailureRate 1.0 every mock-mode connectToDevice on a
discovered device rejects with "Mock connection failed" and leaves the
manager state exactly as it was — in particular a DISCONNECTED device
stays DISCONNECTED — because the failure check precedes any state
mutation. -/
theorem mock_connect_failure_rate_one (st : ManagerState)
    (deviceId : String) (d : DeviceRecord) (random : ℚ)
    (tr : TransportResult)
    (hmock : st.mockOptions.enableMockMode = true)
    (hrate : st.mockOptions.mockFailureRate = 1)
    (_hr0 : 0 ≤ random) (hr1 : random < 1)
    (hd : mapGet st.deviceInfo deviceId = some d) :
    connectToDevice st deviceId random tr =
      (.error (jsError "Mock connection failed"), st) ∧
    (d.connectionState = ConnState.disconnected →
      ∃ d', mapGet (connectToDevice st deviceId random tr).2.deviceInfo
          deviceId = some d' ∧
        d'.connectionState = ConnState.disconnected) := by
  have hmain : connectToDevice st deviceId random tr =
      (.error (jsError "Mock connection failed"), st) := by
    rw [connectToDevice, if_pos hmock, mockConnectToDevice]
    simp only [hd]
    rw [hrate]
    have hj : jsOrRat 1 0 = 1 := by rw [jsOrRat]; norm_num
    rw [hj, if_pos hr1]
  refine ⟨hmain, fun hdc => ⟨d, ?_, hdc⟩⟩
  rw [hmain]
  exact hd

theorem mock_connect_failure_rate_one_witness :
    (connectToDevice
        { deviceInfo := [("m1", { id := "m1", name := "M",
                                  connectionState := ConnState.disconnected })],
          mockOptions := { enableMockMode := true, mockFailureRate := 1 } }
        "m1" (1/2) .success =
      (.error (jsError "Mock connection failed"),
        { deviceInfo := [("m1", { id := "m1", name := "M",
                                  connectionState := ConnState.disconnected })],
          mockOptions := { enableMockMode := true, mockFailureRate := 1 } })) ∧
    (∃ d', mapGet (connectToDevice
        { deviceInfo := [("m1", { id := "m1", name := "M",
                                  connectionState := ConnState.disconnected })],
          mockOptions := { enableMockMode := true, mockFailureRate := 1 } }
        "m1" (1/2) .success).2.deviceInfo "m1" = some d' ∧
      d'.connectionState = ConnState.disconnected) := by
  have h := mock_connect_failure_rate_one
    { deviceInfo := [("m1", { id := "m1", name := "M",
                              connectionState := ConnState.disconnected })],
      mockOptions := { enableMockMode := true, mockFailureRate := 1 } }
    "m1" { id := "m1", name := "M",
           connectionState := ConnState.disconnected }
    (1/2) .success rfl rfl (by norm_num) (by norm_num) rfl
  exact ⟨h.1, h.2 rfl⟩

/-- C7 amended: connectToDevice on an id absent from the registry (never
scanned) always rejects, in both mock and real mode, with a generic
`Error` whose message is "Device (id) not found. Run scan first.", and
leaves the state unchanged. -/
theorem connect_unknown_id_rejects (st : ManagerState) (deviceId : String)
    (random : ℚ) (tr : TransportResult)
    (hd : mapGet st.deviceInfo deviceId = none) :
    connectToDevice st deviceId random tr =
      (.error (jsError ("Device " ++ deviceId ++ " not found. Run scan first.")),
        st) := by
  rw [connectToDevice]
  by_cases hm : st.mockOptions.enableMockMode = true
  · rw [if_pos hm, mockConnectToDevice]
    simp only [hd]
  · rw [if_neg hm]
    simp only [hd]

theorem connect_unknown_id_rejects_witness :
    connectToDevice { mockOptions := { enableMockMode := true } }
        "meter-x" 0 .success =
      (.error (jsError ("Device " ++ "meter-x" ++ " not found. Run scan first.")),
        { mockOptions := { enableMockMode := true } }) :=
  connect_unknown_id_rejects { mockOptions := { enableMockMode := true } }
    "meter-x" 0 .success rfl

/-- C7 counterexample: the "not found" rejection is a plain `Error`
(`name` field "Error"), not a `DeviceNotFoundError` — the codebase's
error module defines no class of that name (only GlucoseSyncError,
InvalidPlatformError, InitializationError, PermissionDeniedError,
UnsupportedFeatureError and DataFormatError). -/
theorem connect_unknown_id_error_name_cex :
    (connectToDevice {} "meter-1" 0 .success).1 =
      .error { name := "Error",
               message := "Device meter-1 not found. Run scan first." } ∧
    "Error" ≠ "DeviceNotFoundError" :=
  ⟨rfl, by decide⟩

/-- C8 amended: in real (non-mock) mode a second connectToDevice on an id
already present in `connectedDevices` is a no-op resolving `true`, with
no state change and no dependence on the transport outcome or the random
draw; in mock mode, however, connectToDevice does not check for an
existing connection: it re-attempts and rejects whenever the draw falls
below the failure rate, leaving the (still CONNECTED) state unchanged. -/
theorem connect_already_connected (st : ManagerState) (deviceId : String) :
    (st.mockOptions.enableMockMode = false →
      st.connectedDevices.contains deviceId = true →
      (∃ d, mapGet st.deviceInfo deviceId = some d) →
      ∀ random tr,
        connectToDevice st deviceId random tr = (.ok true, st))
    ∧
    (st.mockOptions.enableMockMode = true →
      ∀ d random, mapGet st.deviceInfo deviceId = some d →
        random < jsOrRat st.mockOptions.mockFailureRate 0 →
        ∀ tr, connectToDevice st deviceId random tr =
          (.error (jsError "Mock connection failed"), st)) := by
  constructor
  · intro hm hc ⟨d, hd⟩ random tr
    rw [connectToDevice, if_neg (by rw [hm]; exact Bool.false_ne_true)]
    simp only [hd]
    rw [if_pos hc]
  · intro hm d random hd hlt tr
    rw [connectToDevice, if_pos hm, mockConnectToDevice]
    simp only [hd]
    rw [if_pos hlt]

theorem connect_already_connected_witness :
    (connectToDevice
        { connectedDevices := ["r1"],
          deviceInfo := [("r1", { id := "r1", name := "R",
                                  connectionState := ConnState.connected })] }
        "r1" 0 .success =
      (.ok true,
        { connectedDevices := ["r1"],
          deviceInfo := [("r1", { id := "r1", name := "R",
                                  connectionState := ConnState.connected })] })) ∧
    (connectToDevice
        { deviceInfo := [("m1", { id := "m1", name := "M",
                                  connectionState := ConnState.connected })],
          mockOptions := { enableMockMode := true, mockFailureRate := 1/2 } }
        "m1" 0 .success =
      (.error (jsError "Mock connection failed"),
        { deviceInfo := [("m1", { id := "m1", name := "M",
                                  connectionState := ConnState.connected })],
          mockOptions := { enableMockMode := true, mockFailureRate := 1/2 } })) :=
  ⟨(connect_already_connected
      { connectedDevices := ["r1"],
        deviceInfo := [("r1", { id := "r1", name := "R",
                                connectionState := ConnState.connected })] }
      "r1").1 rfl rfl ⟨_, rfl⟩ 0 .success,
    (connect_already_connected
      { deviceInfo := [("m1", { id := "m1", name := "M",
                                connectionState := ConnState.connected })],
        mockOptions := { enableMockMode := true, mockFailureRate := 1/2 } }
      "m1").2 rfl _ 0 rfl (by norm_num [jsOrRat]) .success⟩

/-- Mock manager with failure rate 1/2, after a scan. -/
def c8state1 : ManagerState :=
  (mockScanForDevices
    { mockOptions := { enableMockMode := true, mockFailureRate := 1/2 } }).2

/-- The same manager after a first, successful connect to the first
scanned device (draw 3/4, not below the failure rate 1/2). -/
def c8state2 : ManagerState :=
  (connectToDevice c8state1 "mock-device-1" (3/4) .success).2

/-- C8 counterexample: with the mock transport (failure rate 1/2), after
a successful connect leaves the device CONNECTED, a second
connectToDevice call on the same id is not a no-op returning success: a
draw below the failure rate makes it reject. -/
theorem second_connect_can_fail_cex :
    (connectToDevice c8state1 "mock-device-1" (3/4) .success).1 = .ok true ∧
    (mapGet c8state2.deviceInfo "mock-device-1").map
      (fun d => d.connectionState) = some ConnState.connected ∧
    (connectToDevice c8state2 "mock-device-1" 0 .success).1 =
      .error (jsError "Mock connection failed") := by
  have e1 : c8state1.mockOptions.enableMockMode = true := rfl
  have e2 : c8state1.mockOptions.mockFailureRate = 1/2 := rfl
  have hd1 : mapGet c8state1.deviceInfo "mock-device-1" =
      some (mockDevice 0) := rfl
  have hnot : ¬((3/4 : ℚ) < jsOrRat (1/2) 0) := by
    rw [jsOrRat]; norm_num
  have hlt : (0 : ℚ) < jsOrRat (1/2) 0 := by
    rw [jsOrRat]; norm_num
  have h2 : c8state2 =
      updateDeviceState c8state1 "mock-device-1" ConnState.connected := by
    rw [c8state2, connectToDevice, if_pos e1, mockConnectToDevice]
    simp only [hd1]
    rw [e2, if_neg hnot]
  refine ⟨?_, ?_, ?_⟩
  · rw [connectToDevice, if_pos e1, mockConnectToDevice]
    simp only [hd1]
    rw [e2, if_neg hnot]
  · rw [h2]; rfl
  · rw [h2, connectToDevice,
      if_pos (show (updateDeviceState c8state1 "mock-device-1"
        ConnState.connected).mockOptions.enableMockMode = true from rfl),
      mockConnectToDevice]
    have hd2 : mapGet (updateDeviceState c8state1 "mock-device-1"
        ConnState.connected).deviceInfo "mock-device-1" =
        some { mockDevice 0 with connectionState := ConnState.connected } := rfl
    simp only [hd2]
    rw [show (updateDeviceState c8state1 "mock-device-1"
        ConnState.connected).mockOptions.mockFailureRate = 1/2 from rfl,
      if_pos hlt]

/-- Chronological order on timestamps: the order of the underlying epoch
milliseconds (which agrees with the lexicographic order of the ISO
strings the source stores). -/
def Timestamp.lt (a b : Timestamp) : Prop :=
  match a, b with
  | .epochMs x, .epochMs y => x < y
  | _, _ => False

theorem Timestamp.lt_epochMs (x y : Int) :
    Timestamp.lt (.epochMs x) (.epochMs y) ↔ x < y := Iff.rfl

theorem mockReading_timestamp (deviceId : String) (now : Int)
    (sin : ℚ → ℚ) (rand : Nat → ℚ) (i : Nat) :
    (mockReading deviceId now sin rand i).timestamp =
      .epochMs (now - (i : Int) * (4 * 60 * 60 * 1000)) := rfl

theorem mockReading_id (deviceId : String) (now : Int)
    (sin : ℚ → ℚ) (rand : Nat → ℚ) (i : Nat) :
    (mockReading deviceId now sin rand i).id =
      ReadingId.mock deviceId i := rfl

theorem mockReading_unit (deviceId : String) (now : Int)
    (sin : ℚ → ℚ) (rand : Nat → ℚ) (i : Nat) :
    (mockReading deviceId now sin rand i).unit = GlucoseUnit.mgdl := rfl

theorem mockReading_metadata (deviceId : String) (now : Int)
    (sin : ℚ → ℚ) (rand : Nat → ℚ) (i : Nat) :
    (mockReading deviceId now sin rand i).metadata =
      { sequenceNumber := some (i + 1)
        deviceId := some deviceId
        mockGenerated := some true } := rfl

theorem mockReading_value (deviceId : String) (now : Int)
    (sin : ℚ → ℚ) (rand : Nat → ℚ) (i : Nat) :
    (mockReading deviceId now sin rand i).value =
      .finite (max 70 (min 300
        ((jsRound (120 + sin ((i : ℚ) * (1/10)) * 30 +
          (rand i - 1/2) * 40) : ℤ) : ℚ))) := rfl

theorem mockReading_value_bounds (deviceId : String) (now : Int)
    (sin : ℚ → ℚ) (rand : Nat → ℚ) (i : Nat) :
    ∃ q, (mockReading deviceId now sin rand i).value = .finite q ∧
      70 ≤ q ∧ q ≤ 300 := by
  refine ⟨_, mockReading_value deviceId now sin rand i, le_max_left _ _, ?_⟩
  exact max_le (by norm_num) (min_le_left _ _)

/-- C5: mockSyncDevice on a connected device with mockReadingCount =
N ≥ 1 returns exactly N readings, strictly increasing in timestamp
(oldest first), each with unit mg/dL, value within [70, 300], pairwise
distinct ids, and metadata carrying the device id, a per-device sequence
number and the mockGenerated marker. -/
theorem mockSyncDevice_properties (st : ManagerState) (deviceId : String)
    (d : DeviceRecord) (now : Int) (sin : ℚ → ℚ) (rand : Nat → ℚ) (N : Nat)
    (hd : mapGet st.deviceInfo deviceId = some d)
    (hc : d.connectionState = ConnState.connected)
    (hN : st.mockOptions.mockReadingCount = N) (hpos : 0 < N) :
    ∃ rs, (mockSyncDevice st deviceId now sin rand).1 = .ok rs ∧
      rs.length = N ∧
      rs.Pairwise (fun a b => Timestamp.lt a.timestamp b.timestamp) ∧
      (∀ r ∈ rs, r.unit = GlucoseUnit.mgdl) ∧
      (∀ r ∈ rs, ∃ q, r.value = SFloat.finite q ∧ 70 ≤ q ∧ q ≤ 300) ∧
      (rs.map fun r => r.id).Nodup ∧
      (∀ r ∈ rs, r.metadata.deviceId = some deviceId ∧
        r.metadata.mockGenerated = some true ∧
        ∃ i, r.id = ReadingId.mock deviceId i ∧
          r.metadata.sequenceNumber = some (i + 1)) := by
  have hjor : jsOrNat st.mockOptions.mockReadingCount 50 = N := by
    rw [hN, jsOrNat, if_neg (by omega)]
  refine ⟨((List.range N).map (mockReading deviceId now sin rand)).reverse,
    ?_, by simp, ?_, ?_, ?_, ?_, ?_⟩
  · rw [mockSyncDevice]
    simp only [hd]
    rw [if_pos hc, hjor]
  · rw [List.pairwise_iff_getElem]
    intro i j hi hj hij
    simp only [List.length_reverse, List.length_map, List.length_range] at hi hj
    simp only [List.getElem_reverse, List.getElem_map, List.getElem_range,
      List.length_map, List.length_range, mockReading_timestamp,
      Timestamp.lt_epochMs]
    have hc4 : (4 * 60 * 60 * 1000 : Int) = 14400000 := by norm_num
    rw [hc4]
    have hlt : N - 1 - j < N - 1 - i := by omega
    have : ((N - 1 - j : Nat) : Int) < ((N - 1 - i : Nat) : Int) := by
      exact_mod_cast hlt
    omega
  · intro r hr
    rw [List.mem_reverse, List.mem_map] at hr
    obtain ⟨i, _, rfl⟩ := hr
    exact mockReading_unit deviceId now sin rand i
  · intro r hr
    rw [List.mem_reverse, List.mem_map] at hr
    obtain ⟨i, _, rfl⟩ := hr
    exact mockReading_value_bounds deviceId now sin rand i
  · rw [List.map_reverse, List.nodup_reverse, List.map_map]
    refine List.Nodup.map ?_ (List.nodup_range N)
    intro a b h
    simp only [Function.comp, mockReading_id, ReadingId.mock.injEq] at h
    exact h.2
  · intro r hr
    rw [List.mem_reverse, List.mem_map] at hr
    obtain ⟨i, _, rfl⟩ := hr
    rw [mockReading_metadata, mockReading_id]
    exact ⟨rfl, rfl, i, rfl, rfl⟩

theorem mockSyncDevice_properties_witness :
    ∃ rs, (mockSyncDevice
        { deviceInfo := [("d1", { id := "d1", name := "D",
                                  connectionState := ConnState.connected })],
          mockOptions := { enableMockMode := true, mockReadingCount := 2 } }
        "d1" 0 (fun _ => 0) (fun _ => 0)).1 = .ok rs ∧
      rs.length = 2 ∧
      rs.Pairwise (fun a b => Timestamp.lt a.timestamp b.timestamp) ∧
      (∀ r ∈ rs, r.unit = GlucoseUnit.mgdl) ∧
      (∀ r ∈ rs, ∃ q, r.value = SFloat.finite q ∧ 70 ≤ q ∧ q ≤ 300) ∧
      (rs.map fun r => r.id).Nodup ∧
      (∀ r ∈ rs, r.metadata.deviceId = some "d1" ∧
        r.metadata.mockGenerated = some true ∧
        ∃ i, r.id = ReadingId.mock "d1" i ∧
          r.metadata.sequenceNumber = some (i + 1)) :=
  mockSyncDevice_properties
    { deviceInfo := [("d1", { id := "d1", name := "D",
                              connectionState := ConnState.connected })],
      mockOptions := { enableMockMode := true, mockReadingCount := 2 } }
    "d1" { id := "d1", name := "D", connectionState := ConnState.connected }
    0 (fun _ => 0) (fun _ => 0) 2 rfl rfl rfl (by norm_num)

/-- A connected mock manager configured with mockReadingCount = 0. -/
def c5zstate : ManagerState :=
  { deviceInfo := [("d1", { id := "d1", name := "D",
                            connectionState := ConnState.connected })],
    mockOptions := { enableMockMode := true, mockReadingCount := 0,
                     mockFailureRate := 0 } }

/-- C5 counterexample: with `mockReadingCount = 0` (and failure rate 0)
the mock sync returns 50 readings, not 0 — the source's
`mockReadingCount || 50` treats the falsy 0 as "use the default". -/
theorem mockSync_zero_count_cex :
    ((mockSyncDevice c5zstate "d1" 0 (fun _ => 0) (fun _ => 0)).1.map
      List.length = .ok 50) ∧ (50 : Nat) ≠ 0 :=
  ⟨rfl, by decide⟩

/-- A connected mock manager configured with reading count 1, failure
rate 0 and the default seed 12345. -/
def c9state : ManagerState :=
  { deviceInfo := [("d1", { id := "d1", name := "D",
                            connectionState := ConnState.connected })],
    mockOptions := { enableMockMode := true, mockReadingCount := 1,
                     mockFailureRate := 0, mockSeed := 12345 } }

theorem jsRound_of_intCast (n : Int) : jsRound ((n : ℤ) : ℚ) = n := by
  rw [jsRound, Int.floor_eq_iff]
  constructor <;> [linarith; linarith]

/-- C9: the mock transport is not deterministic. Two `syncDevice` runs on
managers with identical mock options (same device count, reading count,
seed, delay toggle and failure probability) differ whenever their
`Math.random()` draws differ, because `mockSyncDevice` feeds the unseeded
`Math.random()` into each value (the stored `mockSeed` is never read):
with draws 1/2 versus 0 the single reading's value is 120 versus 100. -/
theorem mockSyncDevice_not_deterministic :
    (mockSyncDevice c9state "d1" 0 (fun _ => 0) (fun _ => 1/2)).1 ≠
    (mockSyncDevice c9state "d1" 0 (fun _ => 0) (fun _ => 0)).1 := by
  have h1 : (mockSyncDevice c9state "d1" 0 (fun _ => 0) (fun _ => 1/2)).1 =
      .ok [mockReading "d1" 0 (fun _ => 0) (fun _ => 1/2) 0] := rfl
  have h2 : (mockSyncDevice c9state "d1" 0 (fun _ => 0) (fun _ => 0)).1 =
      .ok [mockReading "d1" 0 (fun _ => 0) (fun _ => 0) 0] := rfl
  rw [h1, h2]
  intro h
  rw [Except.ok.injEq, List.cons.injEq] at h
  have hv := congrArg GlucoseReading.value h.1
  rw [mockReading_value, mockReading_value] at hv
  have e1 : (120 + (fun _ : ℚ => (0 : ℚ)) (((0 : Nat) : ℚ) * (1/10)) * 30 +
      ((fun _ : Nat => (1/2 : ℚ)) 0 - 1/2) * 40) = ((120 : ℤ) : ℚ) := by
    norm_num
  have e2 : (120 + (fun _ : ℚ => (0 : ℚ)) (((0 : Nat) : ℚ) * (1/10)) * 30 +
      ((fun _ : Nat => (0 : ℚ)) 0 - 1/2) * 40) = ((100 : ℤ) : ℚ) := by
    norm_num
  rw [e1, e2, jsRound_of_intCast, jsRound_of_intCast,
    SFloat.finite.injEq] at hv
  have c1 : max (70 : ℚ) (min 300 ((120 : ℤ) : ℚ)) = 120 := by norm_num
  have c2 : max (70 : ℚ) (min 300 ((100 : ℤ) : ℚ)) = 100 := by norm_num
  rw [c1, c2] at hv
  norm_num at hv

end GlucoSync
